import Mathlib

/-!
Shallow embedding of `scripts/abm_simulation.py` (agent-based model for
maternal and child health access), together with proofs about the claims
of the specification.

Modelling conventions:
* Python floats are modelled as `ℚ` (all arithmetic in the source is
  exact decimal arithmetic on small constants; no claim depends on
  floating-point rounding).
* The global pseudorandom generator (`random` / `np.random`, seeded once
  at module import) is modelled as a stream of uniform draws in `[0,1)`
  together with a cursor: `Rng`.  Every call that consumes randomness
  takes and returns the `Rng`.  Index draws (`random.choice`,
  `random.sample`, `random.randint`) are derived from one uniform draw
  each, mirroring how a uniform generator is used to pick an index.
  The numeric transforms producing normal and exponential variates
  (`np.random.normal`, the sources call to an exponential sampler) are
  modelled as consuming one uniform draw and applying a fixed
  transformation; no claim depends on the shape of those distributions.
* Python objects are mutable and held by reference; lists of agents are
  modelled as Lean lists, and in-place mutation of the i-th agent is
  modelled as `List.set i`.  Selection functions therefore work with
  indices into the owning list.
* The cached `self.metrics` dictionary on `Commune` is omitted: it is
  overwritten by every `calculate_metrics` call and never read by any
  code in the stepping loop; all consumers use the returned dictionary.
-/

/-- Stream-of-uniform-draws model of the seeded global pseudorandom
generator: `stream n` is the n-th uniform draw in `[0,1)`, `pos` the
number of draws consumed so far. -/
structure Rng where
  stream : ℕ → ℚ
  pos : ℕ

/-- Consume one uniform draw (`random.random()`). -/
def Rng.next (g : Rng) : ℚ × Rng :=
  (g.stream g.pos, ⟨g.stream, g.pos + 1⟩)

/-- Derive an index in `[0, n)` from one uniform draw (used for
`random.choice` and the per-element picks of `random.sample`).  For
`n = 0` the result is unused by all callers. -/
def Rng.nextIdx (g : Rng) (n : ℕ) : ℕ × Rng :=
  let (q, g') := g.next
  ((Int.toNat ⌊q * n⌋) % n, g')

/-- `random.randint(a, b)`: uniform integer in `[a, b]`, derived from one
uniform draw. -/
def Rng.nextInt (g : Rng) (a b : ℤ) : ℤ × Rng :=
  let (k, g') := g.nextIdx (Int.toNat (b - a + 1))
  (a + k, g')

/-- `random.uniform(a, b)`: one uniform draw rescaled to `[a, b]`. -/
def Rng.nextUniform (g : Rng) (a b : ℚ) : ℚ × Rng :=
  let (q, g') := g.next
  (a + q * (b - a), g')

/-- `AgentAttributes`: base attributes for all agents (immutable). -/
structure AgentAttributes where
  age : ℤ
  ethnicity : String
  literacy_level : ℚ
  poverty_level : ℚ
  mobile_access : Bool
  internet_access : Bool
  distance_to_facility : ℚ
deriving DecidableEq

/-- The four intervention activation flags.  The source passes a Python
dict read with `.get(key, False)`; the scenarios only ever set these four
keys, in the fixed insertion order app_based, sms_outreach, chw_visits,
incentives, which is the order used when applying interventions. -/
structure Interventions where
  app_based : Bool
  sms_outreach : Bool
  chw_visits : Bool
  incentives : Bool
deriving DecidableEq

/-- `MaternalAgent._calculate_care_seeking_threshold`. -/
def calculateCareSeekingThreshold (attrs : AgentAttributes) : ℚ :=
  let base_threshold : ℚ := 0.5
  let literacy_factor := -0.2 * attrs.literacy_level
  let poverty_factor := 0.15 * attrs.poverty_level
  let distance_factor := 0.1 * min (attrs.distance_to_facility / 10) 0.3
  let ethnicity_factor : ℚ := if attrs.ethnicity ≠ "Kinh" then 0.1 else 0
  let threshold :=
    base_threshold + literacy_factor + poverty_factor + distance_factor + ethnicity_factor
  max 0.1 (min 0.9 threshold)

/-- `MaternalAgent._calculate_digital_threshold`. -/
def calculateDigitalThreshold (attrs : AgentAttributes) : ℚ :=
  if ¬ attrs.mobile_access then 1.0
  else
    let base_threshold : ℚ := 0.6
    let literacy_factor := -0.3 * attrs.literacy_level
    let age_factor := 0.01 * ((max 0 (attrs.age - 25) : ℤ) : ℚ)
    let threshold := base_threshold + literacy_factor + age_factor
    max 0.1 (min 0.9 threshold)

/-- The care-seeking threshold exactly as the specification words it:
`clamp(0.1, 0.9, 0.5 − 0.2·literacy + 0.15·poverty + 0.1·min(distance/10, 0.3)
+ (0.1 if ethnicity ≠ majority else 0))`. -/
def specCareSeekingThreshold (attrs : AgentAttributes) : ℚ :=
  max 0.1 (min 0.9
    (0.5 - 0.2 * attrs.literacy_level + 0.15 * attrs.poverty_level
      + 0.1 * min (attrs.distance_to_facility / 10) 0.3
      + (if attrs.ethnicity ≠ "Kinh" then 0.1 else 0)))

/-- The digital-engagement threshold exactly as the specification words
it: `1.0 if no mobile_access else clamp(0.1, 0.9, 0.6 − 0.3·literacy +
0.01·max(0, age−25))`. -/
def specDigitalThreshold (attrs : AgentAttributes) : ℚ :=
  if ¬ attrs.mobile_access then 1.0
  else max 0.1 (min 0.9
    (0.6 - 0.3 * attrs.literacy_level + 0.01 * ((max 0 (attrs.age - 25) : ℤ) : ℚ)))

/-- `MaternalAgent`: mutable behavioral state of a woman of reproductive
age, plus the two derived thresholds fixed at construction. -/
structure MaternalAgent where
  agent_id : String
  commune : String
  attributes : AgentAttributes
  anc_visits : ℕ
  anc_target : ℕ
  weeks_pregnant : ℕ
  is_pregnant : Bool
  has_skilled_birth_attendant : Bool
  app_engagement : ℚ
  received_sms : Bool
  chw_contacted : Bool
  care_seeking_threshold : ℚ
  digital_engagement_threshold : ℚ
deriving DecidableEq

/-- `MaternalAgent.__init__`. -/
def MaternalAgent.mk0 (agent_id commune : String) (attributes : AgentAttributes) :
    MaternalAgent where
  agent_id := agent_id
  commune := commune
  attributes := attributes
  anc_visits := 0
  anc_target := 4
  weeks_pregnant := 0
  is_pregnant := false
  has_skilled_birth_attendant := false
  app_engagement := 0.0
  received_sms := false
  chw_contacted := false
  care_seeking_threshold := calculateCareSeekingThreshold attributes
  digital_engagement_threshold := calculateDigitalThreshold attributes

/-- `MaternalAgent.become_pregnant`. -/
def MaternalAgent.becomePregnant (a : MaternalAgent) : MaternalAgent :=
  { a with is_pregnant := true, weeks_pregnant := 1, anc_visits := 0 }

/-- `MaternalAgent.progress_pregnancy`. -/
def MaternalAgent.progressPregnancy (a : MaternalAgent) : MaternalAgent :=
  if a.is_pregnant then { a with weeks_pregnant := a.weeks_pregnant + 1 } else a

/-- `MaternalAgent.seek_anc_care`.  The Python conjunction
`random.random() < final_prob and random.random() > threshold`
short-circuits: the second draw is consumed only when the first test
passes. -/
def MaternalAgent.seekAncCare (a : MaternalAgent) (iv : Interventions) (g : Rng) :
    Bool × MaternalAgent × Rng :=
  if ¬ a.is_pregnant ∨ a.anc_target ≤ a.anc_visits then (false, a, g)
  else
    let base_prob : ℚ := min 0.8 (0.1 + 0.02 * (a.weeks_pregnant : ℚ))
    let boost1 : ℚ := if iv.app_based ∧ 0.5 < a.app_engagement then 0.2 else 0
    let boost2 : ℚ := if iv.sms_outreach ∧ a.received_sms then 0.15 else 0
    let boost3 : ℚ := if iv.chw_visits ∧ a.chw_contacted then 0.25 else 0
    let boost4 : ℚ := if iv.incentives ∧ 0.6 < a.attributes.poverty_level then 0.3 else 0
    let final_prob : ℚ := min 0.95 (base_prob + boost1 + boost2 + boost3 + boost4)
    let r1 := (g.next).1
    let g1 := (g.next).2
    if r1 < final_prob then
      let r2 := (g1.next).1
      let g2 := (g1.next).2
      if a.care_seeking_threshold < r2 then
        (true, { a with anc_visits := a.anc_visits + 1 }, g2)
      else (false, a, g2)
    else (false, a, g1)

/-- `MaternalAgent.give_birth`. -/
def MaternalAgent.giveBirth (a : MaternalAgent) (g : Rng) :
    Bool × MaternalAgent × Rng :=
  if 40 ≤ a.weeks_pregnant then
    let base_prob : ℚ := 0.4 + 0.1 * (a.anc_visits : ℚ)
    let literacy_boost := 0.2 * a.attributes.literacy_level
    let poverty_penalty := -0.15 * a.attributes.poverty_level
    let distance_penalty := -0.05 * min (a.attributes.distance_to_facility / 5) 0.4
    let final_prob :=
      max 0.1 (min 0.95 (base_prob + literacy_boost + poverty_penalty + distance_penalty))
    let r := (g.next).1
    let g' := (g.next).2
    let a' := { a with
      has_skilled_birth_attendant := decide (r < final_prob),
      is_pregnant := false,
      weeks_pregnant := 0 }
    (a'.has_skilled_birth_attendant, a', g')
  else (false, a, g)

/-- `ChildAgent` (the `age_months = random.randint(0, 59)` draw of the
constructor is made at commune initialization). -/
structure ChildAgent where
  agent_id : String
  commune : String
  mother_id : String
  attributes : AgentAttributes
  age_months : ℕ
  immunizations_received : ℕ
  immunizations_target : ℕ
  care_seeking_delays : ℕ
deriving DecidableEq

/-- `ChildAgent.__init__` with its `random.randint(0, 59)` draw. -/
def ChildAgent.mk0 (agent_id commune mother_id : String)
    (attributes : AgentAttributes) (g : Rng) : ChildAgent × Rng :=
  let (m, g') := g.nextInt 0 59
  (⟨agent_id, commune, mother_id, attributes, m.toNat, 0, 8, 0⟩, g')

/-- `ChildAgent.need_immunization`. -/
def ChildAgent.needImmunization (c : ChildAgent) : Bool :=
  c.immunizations_received < min c.immunizations_target (c.age_months / 2)

/-- The success probability of `ChildAgent.receive_care`, factored out so
statements can speak about it. -/
def receiveCareProb (mother : MaternalAgent) (iv : Interventions) : ℚ :=
  let base_prob : ℚ := 0.3
  let literacy_boost := 0.2 * mother.attributes.literacy_level
  let poverty_penalty := -0.1 * mother.attributes.poverty_level
  let boost1 : ℚ := if iv.app_based ∧ 0.4 < mother.app_engagement then 0.15 else 0
  let boost2 : ℚ := if iv.incentives ∧ 0.5 < mother.attributes.poverty_level then 0.25 else 0
  max 0.05 (min 0.9 (base_prob + literacy_boost + poverty_penalty + boost1 + boost2))

/-- `ChildAgent.receive_care`. -/
def ChildAgent.receiveCare (c : ChildAgent) (mother : MaternalAgent)
    (iv : Interventions) (g : Rng) : Bool × ChildAgent × Rng :=
  if ¬ c.needImmunization then (false, c, g)
  else
    let final_prob := receiveCareProb mother iv
    let r := (g.next).1
    let g' := (g.next).2
    if r < final_prob then
      (true, { c with immunizations_received := c.immunizations_received + 1 }, g')
    else
      (false, { c with care_seeking_delays := c.care_seeking_delays + 1 }, g')

/-- `CHWAgent`. -/
structure CHWAgent where
  agent_id : String
  commune : String
  coverage_area : ℕ
  visits_this_month : ℕ
  max_visits_per_month : ℕ
deriving DecidableEq

/-- `CHWAgent.__init__`. -/
def CHWAgent.mk0 (agent_id commune : String) (coverage_area : ℕ) : CHWAgent :=
  ⟨agent_id, commune, coverage_area, 0, 20⟩

/-- `CHWAgent.conduct_visit`: returns the flag together with the updated
CHW and updated target agent. -/
def CHWAgent.conductVisit (chw : CHWAgent) (target : MaternalAgent) :
    Bool × CHWAgent × MaternalAgent :=
  if chw.visits_this_month < chw.max_visits_per_month then
    (true, { chw with visits_this_month := chw.visits_this_month + 1 },
      { target with chw_contacted := true })
  else (false, chw, target)

/-- `HealthFacility`. -/
structure HealthFacility where
  facility_id : String
  commune : String
  capacity : ℕ
  services : List String
  patients_served_this_month : ℕ
deriving DecidableEq

/-- One row of the demographic input table (most-recent-year row of a
commune, as consumed by the simulation: the three population counts plus
the commune and province names). -/
structure DemographicRow where
  commune : String
  province : String
  total_population : ℕ
  women_15_49 : ℕ
  children_under_5 : ℕ
deriving DecidableEq

/-- `Commune`: owns the four agent collections for one geographic unit. -/
structure Commune where
  name : String
  province : String
  maternal_agents : List MaternalAgent
  child_agents : List ChildAgent
  chw_agents : List CHWAgent
  health_facilities : List HealthFacility
deriving DecidableEq

instance : Inhabited AgentAttributes := ⟨⟨0, "", 0, 0, false, false, 0⟩⟩

instance : Inhabited MaternalAgent := ⟨MaternalAgent.mk0 "" "" default⟩

instance : Inhabited CHWAgent := ⟨CHWAgent.mk0 "" "" 0⟩

instance : Inhabited ChildAgent := ⟨⟨"", "", "", default, 0, 0, 8, 0⟩⟩

/-- `Commune._sample_ethnicity`: a weighted `random.choices` pick,
realised as cut-points of one uniform draw over the cumulative weights
`[0.3, 0.25, 0.2, 0.15, 0.1]` (Dien Bien) or `[0.6, 0.15, 0.1, 0.1, 0.05]`
(Thai Nguyen). -/
def sampleEthnicity (province : String) (g : Rng) : String × Rng :=
  let (q, g') := g.next
  if province = "Dien Bien" then
    (if q < 0.3 then "Kinh" else if q < 0.55 then "Thai" else if q < 0.75 then "Hmong"
      else if q < 0.9 then "Muong" else "Other", g')
  else
    (if q < 0.6 then "Kinh" else if q < 0.75 then "Tay" else if q < 0.85 then "Nung"
      else if q < 0.95 then "Thai" else "Other", g')

/-- Abstract model of `np.random.normal(mu, sigma)`: consumes one uniform
draw and applies a fixed transformation.  No claim depends on the shape
of the normal distribution, only on how the sampled value is clipped by
the callers. -/
def normalVariate (mu sigma q : ℚ) : ℚ :=
  mu + sigma * (2 * q - 1)

/-- Abstract model of the exponential-distance sampler (the source line
`random.exponential(3.0)` names an attribute that the Python `random`
module does not provide; numpy does — modelled here as a nonnegative
transform of one uniform draw with the given scale).  No claim depends on
the distribution shape. -/
def exponentialVariate (scale q : ℚ) : ℚ :=
  scale * 2 * q

/-- `Commune._sample_literacy`. -/
def sampleLiteracy (province : String) (g : Rng) : ℚ × Rng :=
  let (q, g') := g.next
  if province = "Dien Bien" then (max 0 (normalVariate 0.6 0.2 q), g')
  else (max 0 (normalVariate 0.8 0.15 q), g')

/-- `Commune._sample_poverty`. -/
def samplePoverty (province : String) (g : Rng) : ℚ × Rng :=
  let (q, g') := g.next
  if province = "Dien Bien" then (max 0 (min 1 (normalVariate 0.7 0.2 q)), g')
  else (max 0 (min 1 (normalVariate 0.4 0.2 q)), g')

/-- One iteration of the maternal-agent creation loop of
`Commune._initialize_agents`: sample the attributes, build the agent, and
apply the 15% initial-pregnancy draw. -/
def sampleMaternalAgent (name province : String) (i : ℕ) (g : Rng) :
    MaternalAgent × Rng :=
  let (age, g) := g.nextInt 15 49
  let (eth, g) := sampleEthnicity province g
  let (lit, g) := sampleLiteracy province g
  let (pov, g) := samplePoverty province g
  let (qm, g) := g.next
  let (qi, g) := g.next
  let (qd, g) := g.next
  let attrs : AgentAttributes :=
    ⟨age, eth, lit, pov, decide (qm < 0.8), decide (qi < 0.4), exponentialVariate 3 qd⟩
  let agent := MaternalAgent.mk0 (name ++ "_M_" ++ toString i) name attrs
  let (qp, g) := g.next
  (if qp < 0.15 then agent.becomePregnant else agent, g)

/-- The maternal-agent creation loop of `Commune._initialize_agents`. -/
def buildMaternalAgents (name province : String) (n : ℕ) (g : Rng) :
    List MaternalAgent × Rng :=
  (List.range n).foldl
    (fun acc i =>
      let (a, g) := sampleMaternalAgent name province i acc.2
      (acc.1 ++ [a], g))
    ([], g)

/-- One iteration of the child-agent creation loop of
`Commune._initialize_agents`: pick a random mother id (no draw when the
maternal list is empty, matching the Python conditional expression),
sample the attributes, and build the child. -/
def sampleChildAgent (name province : String) (mothers : List MaternalAgent)
    (i : ℕ) (g : Rng) : ChildAgent × Rng :=
  let (motherId, g) :=
    if mothers.isEmpty then (none, g)
    else
      let (k, g') := g.nextIdx mothers.length
      (some (mothers.getD k default).agent_id, g')
  let (age, g) := g.nextInt 0 5
  let (eth, g) := sampleEthnicity province g
  let (pov, g) := samplePoverty province g
  let (qd, g) := g.next
  let attrs : AgentAttributes :=
    ⟨age, eth, 0.0, pov, false, false, exponentialVariate 3 qd⟩
  ChildAgent.mk0 (name ++ "_C_" ++ toString i) name
    (motherId.getD ("Unknown_" ++ toString i)) attrs g

/-- The child-agent creation loop of `Commune._initialize_agents`. -/
def buildChildAgents (name province : String) (mothers : List MaternalAgent)
    (n : ℕ) (g : Rng) : List ChildAgent × Rng :=
  (List.range n).foldl
    (fun acc i =>
      let (c, g) := sampleChildAgent name province mothers i acc.2
      (acc.1 ++ [c], g))
    ([], g)

/-- `Commune.__init__` (including `_initialize_agents` and
`_initialize_facilities`). -/
def initCommune (row : DemographicRow) (g : Rng) : Commune × Rng :=
  let (ms, g) := buildMaternalAgents row.commune row.province row.women_15_49 g
  let (cs, g) := buildChildAgents row.commune row.province ms row.children_under_5 g
  let num_chw := max 1 (row.total_population / 500)
  let chws := (List.range num_chw).map
    (fun i => CHWAgent.mk0 (row.commune ++ "_CHW_" ++ toString i) row.commune 100)
  let facility : HealthFacility :=
    ⟨row.commune ++ "_Clinic", row.commune, 50,
      ["anc", "delivery", "immunization", "general"], 0⟩
  (⟨row.commune, row.province, ms, cs, chws, [facility]⟩, g)

/-- Indices of the maternal agents satisfying an eligibility predicate
(Python filters the objects themselves; since mutation is modelled by
`List.set`, the selection works with indices into the owning list). -/
def eligibleIdx (ms : List MaternalAgent) (p : MaternalAgent → Bool) : List ℕ :=
  (List.range ms.length).filter (fun i => p (ms.getD i default))

/-- `random.sample(pool, k)`: `k` distinct picks without replacement,
each pick removing one element from the remaining pool (the callers
always pass `k ≤ pool.length`; an exhausted pool yields no further
picks). -/
def sampleIdx : ℕ → List ℕ → Rng → List ℕ × Rng
  | k, pool, g =>
    if pool.isEmpty then ([], g)
    else
      match k with
      | 0 => ([], g)
      | k + 1 =>
        let r := (g.nextIdx pool.length).1
        let g' := (g.nextIdx pool.length).2
        let rest := sampleIdx k (pool.eraseIdx r) g'
        (pool.getD r 0 :: rest.1, rest.2)

/-- The `app_based` branch of `Commune.apply_intervention`. -/
def applyAppBased (c : Commune) (coverage : ℚ) (g : Rng) : Commune × Rng :=
  let eligible := eligibleIdx c.maternal_agents
    (fun a => a.attributes.mobile_access && a.attributes.internet_access)
  let num_targeted := Int.toNat ⌊(eligible.length : ℚ) * coverage⌋
  let (targeted, g) := sampleIdx (min num_targeted eligible.length) eligible g
  targeted.foldl
    (fun acc i =>
      let (c, g) := acc
      let a := c.maternal_agents.getD i default
      let (r, g) := g.next
      if a.digital_engagement_threshold < r then
        let (u, g) := g.nextUniform 0.6 0.9
        ({ c with maternal_agents :=
            c.maternal_agents.set i { a with app_engagement := u } }, g)
      else (c, g))
    (c, g)

/-- The `sms_outreach` branch of `Commune.apply_intervention`. -/
def applySmsOutreach (c : Commune) (coverage : ℚ) (g : Rng) : Commune × Rng :=
  let eligible := eligibleIdx c.maternal_agents (fun a => a.attributes.mobile_access)
  let num_targeted := Int.toNat ⌊(eligible.length : ℚ) * coverage⌋
  let (targeted, g) := sampleIdx (min num_targeted eligible.length) eligible g
  (targeted.foldl
    (fun c i =>
      let a := c.maternal_agents.getD i default
      { c with maternal_agents :=
          c.maternal_agents.set i { a with received_sms := true } })
    c, g)

/-- Eligibility predicate of the `chw_visits` branch: high poverty or far
from a facility. -/
def chwEligiblePred (a : MaternalAgent) : Bool :=
  decide (0.6 < a.attributes.poverty_level) || decide (5 < a.attributes.distance_to_facility)

/-- `total_visits_possible` of the `chw_visits` branch: the sum of
`max_visits_per_month` over the CHWs of the commune. -/
def totalVisitsPossible (c : Commune) : ℕ :=
  (c.chw_agents.map (fun chw => chw.max_visits_per_month)).sum

/-- The total remaining monthly visit capacity of a commune
(`max_visits_per_month − visits_this_month` summed over its CHWs) — the
quantity the specification describes as the cap of the CHW targeting. -/
def chwRemainingCapacity (c : Commune) : ℕ :=
  (c.chw_agents.map (fun chw => chw.max_visits_per_month - chw.visits_this_month)).sum

/-- Indices of the CHWs with remaining capacity (the `available_chw`
filter inside the per-target loop). -/
def availableChwIdx (chws : List CHWAgent) : List ℕ :=
  (List.range chws.length).filter
    (fun j => (chws.getD j default).visits_this_month < (chws.getD j default).max_visits_per_month)

/-- The targeted indices of the `chw_visits` branch:
`min(int(len(eligible) * coverage), total_visits_possible)` sampled
without replacement from the eligible set. -/
def chwTargets (c : Commune) (coverage : ℚ) (g : Rng) : List ℕ × Rng :=
  let eligible := eligibleIdx c.maternal_agents chwEligiblePred
  let num_targeted :=
    min (Int.toNat ⌊(eligible.length : ℚ) * coverage⌋) (totalVisitsPossible c)
  sampleIdx (min num_targeted eligible.length) eligible g

/-- The body of the per-target loop of the `chw_visits` branch: pick one
available CHW uniformly (if any) and let it conduct the visit. -/
def chwVisitStep (acc : List MaternalAgent × List CHWAgent × Rng) (i : ℕ) :
    List MaternalAgent × List CHWAgent × Rng :=
  let ms := acc.1
  let chws := acc.2.1
  let g := acc.2.2
  let avail := availableChwIdx chws
  if avail.isEmpty then (ms, chws, g)
  else
    let k := (g.nextIdx avail.length).1
    let g' := (g.nextIdx avail.length).2
    let j := avail.getD k 0
    let v := (chws.getD j default).conductVisit (ms.getD i default)
    (ms.set i v.2.2, chws.set j v.2.1, g')

/-- The `chw_visits` branch of `Commune.apply_intervention`. -/
def applyChwVisits (c : Commune) (coverage : ℚ) (g : Rng) : Commune × Rng :=
  let t := chwTargets c coverage g
  let st := t.1.foldl chwVisitStep (c.maternal_agents, c.chw_agents, t.2)
  ({ c with maternal_agents := st.1, chw_agents := st.2.1 }, st.2.2)

/-- `Commune.apply_intervention` (default coverage 0.7 at every call
site): an if/elif chain over the three recognised intervention types with
no else branch. -/
def Commune.applyIntervention (c : Commune) (t : String) (coverage : ℚ) (g : Rng) :
    Commune × Rng :=
  if t = "app_based" then applyAppBased c coverage g
  else if t = "sms_outreach" then applySmsOutreach c coverage g
  else if t = "chw_visits" then applyChwVisits c coverage g
  else (c, g)

/-- The five-quantity metrics snapshot returned by
`Commune.calculate_metrics`. -/
structure Metrics where
  anc_coverage : ℚ
  skilled_birth_attendance : ℚ
  immunization_coverage : ℚ
  digital_engagement : ℚ
  care_seeking_delays : ℕ
deriving DecidableEq

/-- `Commune.calculate_metrics` (`np.mean` of a list is its sum divided
by its length). -/
def Commune.calculateMetrics (c : Commune) : Metrics :=
  let pregnant_or_recently_pregnant :=
    c.maternal_agents.filter (fun a => a.is_pregnant || decide (0 < a.anc_visits))
  let anc_coverage : ℚ :=
    if pregnant_or_recently_pregnant.isEmpty then 0.0
    else ((pregnant_or_recently_pregnant.filter (fun a => decide (4 ≤ a.anc_visits))).length : ℚ)
      / (pregnant_or_recently_pregnant.length : ℚ)
  let mothers_who_gave_birth :=
    c.maternal_agents.filter (fun a => decide (0 < a.anc_visits))
  let skilled_birth_rate : ℚ :=
    if mothers_who_gave_birth.isEmpty then 0.0
    else ((mothers_who_gave_birth.filter (fun a => a.has_skilled_birth_attendant)).length : ℚ)
      / (mothers_who_gave_birth.length : ℚ)
  let children_needing_immunization :=
    c.child_agents.filter (fun ch => decide (12 ≤ ch.age_months))
  let immunization_coverage : ℚ :=
    if children_needing_immunization.isEmpty then 0.0
    else ((children_needing_immunization.map
        (fun ch => min 1.0 ((ch.immunizations_received : ℚ) / (ch.immunizations_target : ℚ)))).sum)
      / (children_needing_immunization.length : ℚ)
  let digital_agents := c.maternal_agents.filter (fun a => a.attributes.mobile_access)
  let digital_engagement : ℚ :=
    if digital_agents.isEmpty then 0.0
    else ((digital_agents.map (fun a => a.app_engagement)).sum) / (digital_agents.length : ℚ)
  let total_delays := (c.child_agents.map (fun ch => ch.care_seeking_delays)).sum
  ⟨anc_coverage, skilled_birth_rate, immunization_coverage, digital_engagement, total_delays⟩

/-- The per-maternal-agent body of `Commune.step`: a pregnant agent
progresses, attempts ANC care and attempts birth (in that order); a
non-pregnant agent becomes pregnant with per-week probability 0.002. -/
def stepMaternal (iv : Interventions) (acc : List MaternalAgent × Rng)
    (a : MaternalAgent) : List MaternalAgent × Rng :=
  let (done, g) := acc
  if a.is_pregnant then
    let a := a.progressPregnancy
    let (_, a, g) := a.seekAncCare iv g
    let (_, a, g) := a.giveBirth g
    (done ++ [a], g)
  else
    let (r, g) := g.next
    if r < 0.002 then (done ++ [a.becomePregnant], g) else (done ++ [a], g)

/-- The per-child body of the monthly block of `Commune.step`: resolve
the mother by id (first match) and, if found, receive care. -/
def stepChild (ms : List MaternalAgent) (iv : Interventions)
    (acc : List ChildAgent × Rng) (ch : ChildAgent) : List ChildAgent × Rng :=
  let (done, g) := acc
  match ms.find? (fun m => m.agent_id == ch.mother_id) with
  | some mother =>
    let (_, ch', g) := ch.receiveCare mother iv g
    (done ++ [ch'], g)
  | none => (done ++ [ch], g)

/-- `Commune.step`: monthly counter resets (weeks ≡ 0 mod 4, including
week 0, before everything else), then the maternal loop, then the
monthly child loop. -/
def Commune.step (c : Commune) (week : ℕ) (iv : Interventions) (g : Rng) :
    Commune × Rng :=
  let c :=
    if week % 4 = 0 then
      { c with
        chw_agents := c.chw_agents.map (fun chw => { chw with visits_this_month := 0 }),
        health_facilities :=
          c.health_facilities.map (fun f => { f with patients_served_this_month := 0 }) }
    else c
  let (ms, g) := c.maternal_agents.foldl (stepMaternal iv) ([], g)
  let c := { c with maternal_agents := ms }
  if week % 4 = 0 then
    let (cs, g) := c.child_agents.foldl (stepChild c.maternal_agents iv) ([], g)
    ({ c with child_agents := cs }, g)
  else (c, g)

/-- One recorded result row: `{'commune', 'province', 'week', **metrics}`. -/
structure SimRow where
  commune : String
  province : String
  week : ℕ
  anc_coverage : ℚ
  skilled_birth_attendance : ℚ
  immunization_coverage : ℚ
  digital_engagement : ℚ
  care_seeking_delays : ℕ
deriving DecidableEq

/-- Build the result row recorded for a commune at a metric week. -/
def mkSimRow (c : Commune) (week : ℕ) : SimRow :=
  let m := c.calculateMetrics
  ⟨c.name, c.province, week, m.anc_coverage, m.skilled_birth_attendance,
    m.immunization_coverage, m.digital_engagement, m.care_seeking_delays⟩

/-- The items of the interventions dict in insertion order (the order in
which `run_scenario` iterates them when applying interventions). -/
def ivItems (iv : Interventions) : List (String × Bool) :=
  [("app_based", iv.app_based), ("sms_outreach", iv.sms_outreach),
    ("chw_visits", iv.chw_visits), ("incentives", iv.incentives)]

/-- The per-commune body of the intervention-application prologue of
`run_scenario`: apply each active intervention type to the commune (at
the default coverage 0.7), in dict insertion order. -/
def applyIvStep (iv : Interventions) (acc : List Commune × Rng) (c : Commune) :
    List Commune × Rng :=
  let r := (ivItems iv).foldl
    (fun acc2 ti => if ti.2 then (acc2.1).applyIntervention ti.1 0.7 acc2.2 else acc2)
    (c, acc.2)
  (acc.1 ++ [r.1], r.2)

/-- The intervention-application prologue of `run_scenario`: for every
commune, apply each active intervention type. -/
def applyAllInterventions (iv : Interventions) (communes : List Commune) (g : Rng) :
    List Commune × Rng :=
  communes.foldl (applyIvStep iv) ([], g)

/-- The per-commune body of one week of `run_scenario`: step the commune
and, on metric weeks (week ≡ 0 mod 4), record one row for the stepped
commune. -/
def runWeekStep (iv : Interventions) (week : ℕ)
    (acc : List Commune × List SimRow × Rng) (c : Commune) :
    List Commune × List SimRow × Rng :=
  let r := c.step week iv acc.2.2
  (acc.1 ++ [r.1],
    (if week % 4 = 0 then acc.2.1 ++ [mkSimRow r.1 week] else acc.2.1), r.2)

/-- One week of `run_scenario`: step every commune and, on metric weeks,
record one row per commune. -/
def runWeek (iv : Interventions) (week : ℕ) (communes : List Commune) (g : Rng) :
    List Commune × List SimRow × Rng :=
  communes.foldl (runWeekStep iv week) ([], [], g)

/-- The per-week body of the scenario loop: run the week on the current
communes and append the recorded rows. -/
def scenarioWeekStep (iv : Interventions) (acc : List SimRow × List Commune × Rng)
    (week : ℕ) : List SimRow × List Commune × Rng :=
  let w := runWeek iv week acc.2.1 acc.2.2
  (acc.1 ++ w.2.1, w.1, w.2.2)

/-- `ABMSimulation.run_scenario`: apply the active interventions once,
then iterate the weeks, accumulating the recorded rows; returns the rows
together with the mutated communes list. -/
def runScenario (communes : List Commune) (duration_weeks : ℕ)
    (iv : Interventions) (g : Rng) : List SimRow × List Commune × Rng :=
  (List.range duration_weeks).foldl (scenarioWeekStep iv)
    ([], (applyAllInterventions iv communes g).1, (applyAllInterventions iv communes g).2)

/-- One appended commune of `ABMSimulation._initialize_communes`. -/
def initCommuneStep (acc : List Commune × Rng) (row : DemographicRow) :
    List Commune × Rng :=
  (acc.1 ++ [(initCommune row acc.2).1], (initCommune row acc.2).2)

/-- `ABMSimulation._initialize_communes`: appends one freshly built
Commune per demographic row to the existing communes list — the list is
not cleared first (`self.communes.append(...)` on the current list). -/
def initCommunes (data : List DemographicRow) (communes : List Commune) (g : Rng) :
    List Commune × Rng :=
  data.foldl initCommuneStep (communes, g)

/-- `ABMSimulation` state: the loaded demographic table, the communes
list and the per-scenario results mapping (an insertion-ordered
association list, like the Python dict). -/
structure ABMSimulation where
  demographic_data : List DemographicRow
  communes : List Commune
  results : List (String × List SimRow)

/-- `ABMSimulation.__init__` after `_load_data`: builds the communes
list once from the demographic table. -/
def initSimulation (data : List DemographicRow) (g : Rng) : ABMSimulation × Rng :=
  ((⟨data, (initCommunes data [] g).1, []⟩ : ABMSimulation), (initCommunes data [] g).2)

/-- The six fixed scenarios of `run_all_scenarios`, in order. -/
def scenarioList : List (String × Interventions) :=
  [("baseline", ⟨false, false, false, false⟩),
    ("app_based", ⟨true, false, false, false⟩),
    ("sms_outreach", ⟨false, true, false, false⟩),
    ("chw_visits", ⟨false, false, true, false⟩),
    ("incentives", ⟨false, false, false, true⟩),
    ("combined", ⟨true, true, true, true⟩)]

/-- One scenario of `run_all_scenarios`: call `_initialize_communes`
(which appends new communes to the current list), run the scenario on
the resulting communes list, and record the rows under the scenario
name. -/
def runAllStep (duration_weeks : ℕ) (acc : ABMSimulation × Rng)
    (sc : String × Interventions) : ABMSimulation × Rng :=
  let ic := initCommunes acc.1.demographic_data acc.1.communes acc.2
  let r := runScenario ic.1 duration_weeks sc.2 ic.2
  (⟨acc.1.demographic_data, r.2.1, acc.1.results ++ [(sc.1, r.1)]⟩, r.2.2)

/-- `ABMSimulation.run_all_scenarios`: the six scenarios in order. -/
def runAllScenarios (sim : ABMSimulation) (duration_weeks : ℕ) (g : Rng) :
    ABMSimulation × Rng :=
  scenarioList.foldl (runAllStep duration_weeks) (sim, g)

/-- A fixed concrete rng for witnesses: the all-zero draw stream. -/
def rng0 : Rng := ⟨fun _ => 0, 0⟩

/-- A concrete freshly constructed maternal agent (default attributes). -/
def mat1 : MaternalAgent := MaternalAgent.mk0 "m" "x" default

/-- The all-inactive intervention set (the baseline default of
`run_scenario`). -/
def ivNone : Interventions := ⟨false, false, false, false⟩

/-- Sequential composition of `seek_anc_care` calls (one per listed
intervention set), threading the agent and the generator. -/
def seekSeq (a : MaternalAgent) (g : Rng) : List Interventions → MaternalAgent × Rng
  | [] => (a, g)
  | iv :: rest =>
    let r := a.seekAncCare iv g
    seekSeq r.2.1 r.2.2 rest

theorem seekAncCare_guard (a : MaternalAgent) (iv : Interventions) (g : Rng)
    (h : ¬ a.is_pregnant ∨ a.anc_target ≤ a.anc_visits) :
    a.seekAncCare iv g = (false, a, g) := by
  unfold MaternalAgent.seekAncCare
  rw [if_pos h]

theorem seekAncCare_cases (a : MaternalAgent) (iv : Interventions) (g : Rng) :
    (a.seekAncCare iv g).2.1 = a ∨
      (a.anc_visits < a.anc_target ∧
        (a.seekAncCare iv g).2.1 = { a with anc_visits := a.anc_visits + 1 }) := by
  by_cases h : ¬ a.is_pregnant ∨ a.anc_target ≤ a.anc_visits
  · rw [seekAncCare_guard a iv g h]
    exact Or.inl rfl
  · unfold MaternalAgent.seekAncCare
    rw [if_neg h]
    push_neg at h
    dsimp only
    split_ifs <;>
      first
        | exact Or.inl rfl
        | exact Or.inr ⟨h.2, rfl⟩

theorem seekSeq_visits_le (l : List Interventions) :
    ∀ (a : MaternalAgent) (g : Rng) (t : ℕ), a.anc_target = t → a.anc_visits ≤ t →
      (seekSeq a g l).1.anc_visits ≤ t := by
  induction l with
  | nil => intro a g t _ hv; exact hv
  | cons iv rest ih =>
    intro a g t ht hv
    show (seekSeq (a.seekAncCare iv g).2.1 (a.seekAncCare iv g).2.2 rest).1.anc_visits ≤ t
    rcases seekAncCare_cases a iv g with h | ⟨hlt, h⟩
    · rw [h]
      exact ih a _ t ht hv
    · rw [h]
      refine ih _ _ t ht ?_
      show a.anc_visits + 1 ≤ t
      omega

theorem seekSeq_not_pregnant (l : List Interventions) :
    ∀ (a : MaternalAgent) (g : Rng), a.is_pregnant = false → seekSeq a g l = (a, g) := by
  induction l with
  | nil => intro a g _; rfl
  | cons iv rest ih =>
    intro a g h
    show (seekSeq (a.seekAncCare iv g).2.1 (a.seekAncCare iv g).2.2 rest) = (a, g)
    rw [seekAncCare_guard a iv g (Or.inl (by simp [h]))]
    exact ih a g h

/-- C3: `seek_anc_care` returns false and leaves the agent (and the
generator) unchanged whenever the agent is not pregnant or
`anc_visits ≥ anc_target`; across any sequence of `seek_anc_care` calls
`anc_visits` never exceeds `anc_target`, and a non-pregnant agent is
never modified by any such sequence. -/
theorem c3_seek_anc_care_guard_and_bound (a : MaternalAgent) (iv : Interventions)
    (g : Rng) (l : List Interventions) :
    ((¬ a.is_pregnant ∨ a.anc_target ≤ a.anc_visits) →
      a.seekAncCare iv g = (false, a, g)) ∧
    (a.anc_visits ≤ a.anc_target → (seekSeq a g l).1.anc_visits ≤ a.anc_target) ∧
    (a.is_pregnant = false → seekSeq a g l = (a, g)) :=
  ⟨seekAncCare_guard a iv g,
    seekSeq_visits_le l a g a.anc_target rfl,
    seekSeq_not_pregnant l a g⟩

/-- Witness for C3 at a concrete freshly constructed (non-pregnant)
agent. -/
theorem c3_witness :
    mat1.seekAncCare ivNone rng0 = (false, mat1, rng0) ∧
    (seekSeq mat1 rng0 [ivNone]).1.anc_visits ≤ mat1.anc_target ∧
    seekSeq mat1 rng0 [ivNone] = (mat1, rng0) :=
  ⟨(c3_seek_anc_care_guard_and_bound mat1 ivNone rng0 [ivNone]).1 (Or.inl (by decide)),
    (c3_seek_anc_care_guard_and_bound mat1 ivNone rng0 [ivNone]).2.1 (by decide),
    (c3_seek_anc_care_guard_and_bound mat1 ivNone rng0 [ivNone]).2.2 (by decide)⟩

/-- C4: `give_birth` is a no-op returning false below 40 weeks; at or
beyond 40 weeks it always clears `is_pregnant` and `weeks_pregnant`
whatever the draw, and never modifies `anc_visits`; only
`become_pregnant` resets `anc_visits` (to 0). -/
theorem c4_give_birth (a : MaternalAgent) (g : Rng) :
    (a.weeks_pregnant < 40 → a.giveBirth g = (false, a, g)) ∧
    (40 ≤ a.weeks_pregnant →
      (a.giveBirth g).2.1.is_pregnant = false ∧
      (a.giveBirth g).2.1.weeks_pregnant = 0 ∧
      (a.giveBirth g).2.1.anc_visits = a.anc_visits) ∧
    a.becomePregnant.anc_visits = 0 := by
  refine ⟨?_, ?_, rfl⟩
  · intro h
    unfold MaternalAgent.giveBirth
    rw [if_neg (by omega)]
  · intro h
    unfold MaternalAgent.giveBirth
    rw [if_pos h]
    exact ⟨rfl, rfl, rfl⟩

/-- Witness for C4: a concrete agent at 40 weeks, and one below term. -/
theorem c4_witness :
    ((mat1.becomePregnant.giveBirth rng0 = (false, mat1.becomePregnant, rng0)) ∧
      ({ mat1 with weeks_pregnant := 40, is_pregnant := true }.giveBirth rng0).2.1.is_pregnant
        = false) :=
  ⟨(c4_give_birth mat1.becomePregnant rng0).1 (by decide),
    ((c4_give_birth { mat1 with weeks_pregnant := 40, is_pregnant := true } rng0).2.1
      (by decide)).1⟩

/-- C5: `conduct_visit` at capacity returns false and mutates neither
party; below capacity it marks the target contacted, increments
`visits_this_month` by exactly one and returns true; the invariant
`visits_this_month ≤ max_visits_per_month` is preserved by every call. -/
theorem c5_conduct_visit (chw : CHWAgent) (target : MaternalAgent) :
    (chw.max_visits_per_month ≤ chw.visits_this_month →
      chw.conductVisit target = (false, chw, target)) ∧
    (chw.visits_this_month < chw.max_visits_per_month →
      chw.conductVisit target =
        (true, { chw with visits_this_month := chw.visits_this_month + 1 },
          { target with chw_contacted := true })) ∧
    (chw.visits_this_month ≤ chw.max_visits_per_month →
      (chw.conductVisit target).2.1.visits_this_month ≤ chw.max_visits_per_month) := by
  unfold CHWAgent.conductVisit
  refine ⟨fun h => ?_, fun h => ?_, fun h => ?_⟩
  · rw [if_neg (by omega)]
  · rw [if_pos h]
  · split
    · simpa using by omega
    · simpa using h

/-- Witness for C5: a fresh CHW (0 of 20 visits used) visiting a fresh
agent. -/
theorem c5_witness :
    (CHWAgent.mk0 "c" "x" 100).conductVisit mat1 =
      (true, { CHWAgent.mk0 "c" "x" 100 with visits_this_month := 1 },
        { mat1 with chw_contacted := true }) ∧
    ((CHWAgent.mk0 "c" "x" 100).conductVisit mat1).2.1.visits_this_month ≤
      (CHWAgent.mk0 "c" "x" 100).max_visits_per_month :=
  ⟨by
    have h := (c5_conduct_visit (CHWAgent.mk0 "c" "x" 100) mat1).2.1 (by decide)
    simpa using h,
    (c5_conduct_visit (CHWAgent.mk0 "c" "x" 100) mat1).2.2 (by decide)⟩

/-- A concrete child too young to need any immunization
(`age_months = 0`). -/
def child0 : ChildAgent := ⟨"c", "x", "m", default, 0, 0, 8, 0⟩

/-- A concrete child at 24 months with no immunizations received yet. -/
def child24 : ChildAgent := ⟨"c", "x", "m", default, 24, 0, 8, 0⟩

/-- C8: `receive_care` is a no-op returning false when the child does not
need immunization; otherwise one draw against a probability clamped to
`[0.05, 0.9]` either increments `immunizations_received` (returning true)
or increments `care_seeking_delays` (returning false), exactly one of the
two counters per call, and `care_seeking_delays` never decreases. -/
theorem c8_receive_care (c : ChildAgent) (mother : MaternalAgent)
    (iv : Interventions) (g : Rng) :
    (¬ c.needImmunization → c.receiveCare mother iv g = (false, c, g)) ∧
    0.05 ≤ receiveCareProb mother iv ∧ receiveCareProb mother iv ≤ 0.9 ∧
    c.care_seeking_delays ≤ (c.receiveCare mother iv g).2.1.care_seeking_delays ∧
    (c.needImmunization →
      c.receiveCare mother iv g =
          (true, { c with immunizations_received := c.immunizations_received + 1 },
            (g.next).2) ∨
        c.receiveCare mother iv g =
          (false, { c with care_seeking_delays := c.care_seeking_delays + 1 },
            (g.next).2)) := by
  refine ⟨fun h => ?_, ?_, ?_, ?_, fun h => ?_⟩
  · unfold ChildAgent.receiveCare
    rw [if_pos h]
  · exact le_max_left _ _
  · exact max_le (by norm_num) (min_le_left _ _)
  · unfold ChildAgent.receiveCare
    by_cases h : ¬ c.needImmunization
    · rw [if_pos h]
    · rw [if_neg h]
      dsimp only
      split_ifs
      · exact le_refl _
      · exact Nat.le_succ _
  · unfold ChildAgent.receiveCare
    rw [if_neg (not_not_intro h)]
    dsimp only
    split_ifs
    · exact Or.inl rfl
    · exact Or.inr rfl

/-- Witness for C8: the too-young child is untouched; the 24-month child
resolves to exactly one of the two outcomes. -/
theorem c8_witness :
    child0.receiveCare mat1 ivNone rng0 = (false, child0, rng0) ∧
    (child24.receiveCare mat1 ivNone rng0 =
        (true, { child24 with immunizations_received := 1 }, (rng0.next).2) ∨
      child24.receiveCare mat1 ivNone rng0 =
        (false, { child24 with care_seeking_delays := 1 }, (rng0.next).2)) :=
  ⟨(c8_receive_care child0 mat1 ivNone rng0).1 (by decide),
    (c8_receive_care child24 mat1 ivNone rng0).2.2.2.2 (by decide)⟩

/-- C9: for every attribute combination, the constructor yields a
care-seeking threshold in `[0.1, 0.9]` and a digital threshold that is
exactly 1.0 without mobile access and otherwise lies in `[0.1, 0.9]`,
each equal to the clamp formula the specification states. -/
theorem c9_constructor_thresholds (i c : String) (attrs : AgentAttributes) :
    0.1 ≤ (MaternalAgent.mk0 i c attrs).care_seeking_threshold ∧
    (MaternalAgent.mk0 i c attrs).care_seeking_threshold ≤ 0.9 ∧
    (attrs.mobile_access = false →
      (MaternalAgent.mk0 i c attrs).digital_engagement_threshold = 1.0) ∧
    (attrs.mobile_access = true →
      0.1 ≤ (MaternalAgent.mk0 i c attrs).digital_engagement_threshold ∧
      (MaternalAgent.mk0 i c attrs).digital_engagement_threshold ≤ 0.9) ∧
    (MaternalAgent.mk0 i c attrs).care_seeking_threshold = specCareSeekingThreshold attrs ∧
    (MaternalAgent.mk0 i c attrs).digital_engagement_threshold = specDigitalThreshold attrs := by
  refine ⟨le_max_left _ _, max_le (by norm_num) (min_le_left _ _), fun h => ?_, fun h => ?_,
    ?_, ?_⟩
  · show calculateDigitalThreshold attrs = 1.0
    unfold calculateDigitalThreshold
    rw [if_pos (by simp [h])]
  · show 0.1 ≤ calculateDigitalThreshold attrs ∧ calculateDigitalThreshold attrs ≤ 0.9
    unfold calculateDigitalThreshold
    rw [if_neg (by simp [h])]
    exact ⟨le_max_left _ _, max_le (by norm_num) (min_le_left _ _)⟩
  · show calculateCareSeekingThreshold attrs = specCareSeekingThreshold attrs
    unfold calculateCareSeekingThreshold specCareSeekingThreshold
    dsimp only
    ring_nf
  · show calculateDigitalThreshold attrs = specDigitalThreshold attrs
    unfold calculateDigitalThreshold specDigitalThreshold
    by_cases h : attrs.mobile_access
    · rw [if_neg (by simp [h]), if_neg (by simp [h])]
      dsimp only
      ring_nf
    · rw [if_pos (by simp [h]), if_pos (by simp [h])]

/-- Witness for C9 at default attributes (no mobile access). -/
theorem c9_witness :
    (default : AgentAttributes).mobile_access = false ∧
    (MaternalAgent.mk0 "m" "x" default).digital_engagement_threshold = 1.0 :=
  ⟨by decide, (c9_constructor_thresholds "m" "x" default).2.2.1 (by decide)⟩

/-- A concrete empty commune. -/
def commune0 : Commune := ⟨"A", "Dien Bien", [], [], [], []⟩

/-- C10: `apply_intervention` with any type other than the three handled
branches (in particular the configured fourth type `incentives`) changes
nothing: no agent, CHW or facility state is touched and no draw is
consumed. -/
theorem c10_unknown_intervention_noop (c : Commune) (t : String) (cov : ℚ) (g : Rng) :
    t ≠ "app_based" → t ≠ "sms_outreach" → t ≠ "chw_visits" →
    c.applyIntervention t cov g = (c, g) := by
  intro h1 h2 h3
  unfold Commune.applyIntervention
  rw [if_neg h1, if_neg h2, if_neg h3]

/-- Witness for C10: the `incentives` type at an explicit commune. -/
theorem c10_witness :
    commune0.applyIntervention "incentives" 0.7 rng0 = (commune0, rng0) :=
  c10_unknown_intervention_noop commune0 "incentives" 0.7 rng0
    (by decide) (by decide) (by decide)

/-- C6: `calculate_metrics` never fails on an empty denominator — each of
the four rate metrics reports 0 when its denominator population is
empty. -/
theorem c6_calculate_metrics_empty_denominators (c : Commune) :
    ((∀ a ∈ c.maternal_agents, a.is_pregnant = false ∧ a.anc_visits = 0) →
      c.calculateMetrics.anc_coverage = 0) ∧
    ((∀ a ∈ c.maternal_agents, a.anc_visits = 0) →
      c.calculateMetrics.skilled_birth_attendance = 0) ∧
    ((∀ ch ∈ c.child_agents, ch.age_months < 12) →
      c.calculateMetrics.immunization_coverage = 0) ∧
    ((∀ a ∈ c.maternal_agents, a.attributes.mobile_access = false) →
      c.calculateMetrics.digital_engagement = 0) := by
  refine ⟨fun h => ?_, fun h => ?_, fun h => ?_, fun h => ?_⟩
  · have hf : (c.maternal_agents.filter
        (fun a => a.is_pregnant || decide (0 < a.anc_visits))).isEmpty = true := by
      rw [List.isEmpty_iff, List.filter_eq_nil_iff]
      intro a ha
      simp [(h a ha).1, (h a ha).2]
    unfold Commune.calculateMetrics
    dsimp only
    rw [if_pos hf]
    norm_num
  · have hf : (c.maternal_agents.filter
        (fun a => decide (0 < a.anc_visits))).isEmpty = true := by
      rw [List.isEmpty_iff, List.filter_eq_nil_iff]
      intro a ha
      simp [h a ha]
    unfold Commune.calculateMetrics
    dsimp only
    rw [if_pos hf]
    norm_num
  · have hf : (c.child_agents.filter
        (fun ch => decide (12 ≤ ch.age_months))).isEmpty = true := by
      rw [List.isEmpty_iff, List.filter_eq_nil_iff]
      intro ch hch
      simpa using Nat.not_le.mpr (h ch hch)
    unfold Commune.calculateMetrics
    dsimp only
    rw [if_pos hf]
    norm_num
  · have hf : (c.maternal_agents.filter
        (fun a => a.attributes.mobile_access)).isEmpty = true := by
      rw [List.isEmpty_iff, List.filter_eq_nil_iff]
      intro a ha
      simp [h a ha]
    unfold Commune.calculateMetrics
    dsimp only
    rw [if_pos hf]
    norm_num

/-- Witness for C6 at the concrete empty commune. -/
theorem c6_witness :
    commune0.calculateMetrics.anc_coverage = 0 ∧
    commune0.calculateMetrics.skilled_birth_attendance = 0 ∧
    commune0.calculateMetrics.immunization_coverage = 0 ∧
    commune0.calculateMetrics.digital_engagement = 0 :=
  ⟨(c6_calculate_metrics_empty_denominators commune0).1 (by simp [commune0]),
    (c6_calculate_metrics_empty_denominators commune0).2.1 (by simp [commune0]),
    (c6_calculate_metrics_empty_denominators commune0).2.2.1 (by simp [commune0]),
    (c6_calculate_metrics_empty_denominators commune0).2.2.2 (by simp [commune0])⟩

/-- Number of maternal agents currently marked `chw_contacted`. -/
def contactedCount (ms : List MaternalAgent) : ℕ :=
  ms.countP (fun a => a.chw_contacted)

/-- Total remaining monthly visit capacity of a list of CHWs. -/
def remainingCapacity (chws : List CHWAgent) : ℕ :=
  (chws.map (fun chw => chw.max_visits_per_month - chw.visits_this_month)).sum

theorem getD_mem_of_lt {α : Type} (l : List α) (d : α) (k : ℕ) (hk : k < l.length) :
    l.getD k d ∈ l := by
  rw [List.getD_eq_getElem l d hk]
  exact List.getElem_mem hk

theorem countP_set_le {α : Type} (p : α → Bool) (l : List α) (k : ℕ) (a : α) :
    (l.set k a).countP p ≤ l.countP p + 1 := by
  induction l generalizing k with
  | nil => simp
  | cons x xs ih =>
    cases k with
    | zero =>
      simp only [List.set, List.countP_cons]
      split_ifs <;> omega
    | succ k =>
      simp only [List.set, List.countP_cons]
      have := ih k
      split_ifs <;> omega

theorem sum_map_set {α : Type} (f : α → ℕ) :
    ∀ (l : List α) (k : ℕ) (a d : α), k < l.length →
      ((l.set k a).map f).sum + f (l.getD k d) = (l.map f).sum + f a := by
  intro l
  induction l with
  | nil => intro k a d hk; simp at hk
  | cons x xs ih =>
    intro k a d hk
    cases k with
    | zero =>
      simp only [List.set, List.map, List.sum_cons, List.getD_cons_zero]
      omega
    | succ k =>
      simp only [List.set, List.map, List.sum_cons, List.getD_cons_succ]
      have := ih k a d (by simpa using hk)
      omega

theorem availableChwIdx_spec (chws : List CHWAgent) (j : ℕ)
    (hj : j ∈ availableChwIdx chws) :
    j < chws.length ∧
      (chws.getD j default).visits_this_month < (chws.getD j default).max_visits_per_month := by
  unfold availableChwIdx at hj
  rw [List.mem_filter] at hj
  exact ⟨List.mem_range.mp hj.1, by simpa using hj.2⟩

theorem chwVisitStep_bound (st : List MaternalAgent × List CHWAgent × Rng) (i : ℕ) :
    contactedCount (chwVisitStep st i).1 + remainingCapacity (chwVisitStep st i).2.1 ≤
      contactedCount st.1 + remainingCapacity st.2.1 := by
  obtain ⟨ms, chws, g⟩ := st
  unfold chwVisitStep
  dsimp only
  by_cases he : (availableChwIdx chws).isEmpty
  · rw [if_pos he]
  · rw [if_neg he]
    dsimp only
    have hlen : 0 < (availableChwIdx chws).length := by
      cases hl : availableChwIdx chws
      · rw [hl] at he; simp at he
      · simp [hl]
    have hkl : (g.nextIdx (availableChwIdx chws).length).1 < (availableChwIdx chws).length := by
      unfold Rng.nextIdx
      dsimp only
      exact Nat.mod_lt _ hlen
    have hjmem :
        (availableChwIdx chws).getD (g.nextIdx (availableChwIdx chws).length).1 0 ∈
          availableChwIdx chws :=
      getD_mem_of_lt _ 0 _ hkl
    obtain ⟨hjlt, hjav⟩ := availableChwIdx_spec chws _ hjmem
    rw [show (chws.getD ((availableChwIdx chws).getD
          (g.nextIdx (availableChwIdx chws).length).1 0) default).conductVisit
          (ms.getD i default) =
        (true,
          { chws.getD ((availableChwIdx chws).getD
              (g.nextIdx (availableChwIdx chws).length).1 0) default with
            visits_this_month :=
              (chws.getD ((availableChwIdx chws).getD
                (g.nextIdx (availableChwIdx chws).length).1 0) default).visits_this_month + 1 },
          { ms.getD i default with chw_contacted := true }) from by
      unfold CHWAgent.conductVisit
      rw [if_pos hjav]]
    dsimp only
    have h1 : contactedCount (ms.set i { ms.getD i default with chw_contacted := true }) ≤
        contactedCount ms + 1 :=
      countP_set_le _ ms i _
    have h2 := sum_map_set (fun chw => chw.max_visits_per_month - chw.visits_this_month) chws
      ((availableChwIdx chws).getD (g.nextIdx (availableChwIdx chws).length).1 0)
      { chws.getD ((availableChwIdx chws).getD
          (g.nextIdx (availableChwIdx chws).length).1 0) default with
        visits_this_month :=
          (chws.getD ((availableChwIdx chws).getD
            (g.nextIdx (availableChwIdx chws).length).1 0) default).visits_this_month + 1 }
      default hjlt
    simp only [remainingCapacity, contactedCount] at h1 h2 ⊢
    omega

theorem chwVisits_foldl_bound (ts : List ℕ) :
    ∀ st : List MaternalAgent × List CHWAgent × Rng,
      contactedCount (ts.foldl chwVisitStep st).1 +
          remainingCapacity (ts.foldl chwVisitStep st).2.1 ≤
        contactedCount st.1 + remainingCapacity st.2.1 := by
  induction ts with
  | nil => intro st; exact le_refl _
  | cons t ts ih =>
    intro st
    calc contactedCount ((t :: ts).foldl chwVisitStep st).1 +
          remainingCapacity ((t :: ts).foldl chwVisitStep st).2.1 ≤
        contactedCount (chwVisitStep st t).1 + remainingCapacity (chwVisitStep st t).2.1 :=
          ih (chwVisitStep st t)
      _ ≤ contactedCount st.1 + remainingCapacity st.2.1 := chwVisitStep_bound st t

theorem sampleIdx_length : ∀ (k : ℕ) (pool : List ℕ) (g : Rng),
    (sampleIdx k pool g).1.length = min k pool.length := by
  intro k
  induction k with
  | zero =>
    intro pool g
    unfold sampleIdx
    split_ifs <;> simp
  | succ k ih =>
    intro pool g
    unfold sampleIdx
    by_cases he : pool.isEmpty
    · rw [if_pos he]
      have h0 : pool.length = 0 := by
        cases pool
        · rfl
        · simp at he
      simp [h0]
    · rw [if_neg he]
      dsimp only
      have hlen : 0 < pool.length := by
        cases pool
        · simp at he
        · simp
      have hr : (g.nextIdx pool.length).1 < pool.length := by
        unfold Rng.nextIdx
        dsimp only
        exact Nat.mod_lt _ hlen
      rw [List.length_cons, ih, List.length_eraseIdx_of_lt hr]
      omega

/-- C2 (amended): the `chw_visits` targeting caps the target count at the
commune's full monthly capacity `total_visits_possible` (the sum of
`max_visits_per_month`, not the remaining capacity), and the visit loop
itself consumes one unit of remaining capacity per marked agent, so
starting from a commune with no agent contacted, the number of agents
with `chw_contacted = true` after application never exceeds the remaining
capacity, and in particular never exceeds `total_visits_possible`. -/
theorem c2_chw_capacity (c : Commune) (cov : ℚ) (g : Rng)
    (h0 : ∀ a ∈ c.maternal_agents, a.chw_contacted = false) :
    (chwTargets c cov g).1.length ≤
        min (Int.toNat ⌊((eligibleIdx c.maternal_agents chwEligiblePred).length : ℚ) * cov⌋)
          (totalVisitsPossible c) ∧
    contactedCount (applyChwVisits c cov g).1.maternal_agents ≤ chwRemainingCapacity c ∧
    contactedCount (applyChwVisits c cov g).1.maternal_agents ≤ totalVisitsPossible c := by
  have hc0 : contactedCount c.maternal_agents = 0 :=
    List.countP_eq_zero.mpr (by intro a ha; simpa using h0 a ha)
  have hfold := chwVisits_foldl_bound (chwTargets c cov g).1
    (c.maternal_agents, c.chw_agents, (chwTargets c cov g).2)
  have happ : (applyChwVisits c cov g).1.maternal_agents =
      ((chwTargets c cov g).1.foldl chwVisitStep
        (c.maternal_agents, c.chw_agents, (chwTargets c cov g).2)).1 := rfl
  have hrem : remainingCapacity c.chw_agents = chwRemainingCapacity c := rfl
  have hle : chwRemainingCapacity c ≤ totalVisitsPossible c := by
    unfold chwRemainingCapacity totalVisitsPossible
    exact List.sum_le_sum (by intro chw _; omega)
  refine ⟨?_, ?_, ?_⟩
  · unfold chwTargets
    dsimp only
    rw [sampleIdx_length]
    exact le_trans (Nat.min_le_left _ _) (Nat.min_le_left _ _)
  · rw [happ]
    dsimp only at hfold
    omega
  · rw [happ]
    dsimp only at hfold
    omega

/-- A concrete eligible maternal agent (poverty 1 > 0.6). -/
def badAgent : MaternalAgent :=
  MaternalAgent.mk0 "m" "B" ⟨30, "Kinh", 0, 1, false, false, 0⟩

/-- A concrete CHW with most of its monthly capacity already consumed
(19 of 20 visits used, so 1 remains). -/
def badChw : CHWAgent := ⟨"B_CHW_0", "B", 100, 19, 20⟩

/-- A concrete commune with 2 eligible agents and one almost-exhausted
CHW: remaining capacity 1, full capacity 20. -/
def badCommune : Commune :=
  ⟨"B", "P", [badAgent, badAgent], [], [badChw], []⟩

/-- Counterexample to C2 as stated: at coverage 1 on `badCommune`, the
targeting selects `min(int(2·1), 20) = 2` agents, which exceeds
`min(int(2·1), R) = 1` where `R` is the remaining capacity — the code
caps the target count at full, not remaining, capacity. -/
theorem c2_counterexample :
    ¬ ((chwTargets badCommune 1 rng0).1.length ≤
        min (Int.toNat ⌊((eligibleIdx badCommune.maternal_agents chwEligiblePred).length : ℚ) * 1⌋)
          (chwRemainingCapacity badCommune)) := by
  have hp : ∀ i ∈ [0, 1],
      (fun i => chwEligiblePred (badCommune.maternal_agents.getD i default)) i = true := by
    intro i hi
    fin_cases hi <;>
      · show chwEligiblePred badAgent = true
        norm_num [chwEligiblePred, badAgent, MaternalAgent.mk0]
  have helig : eligibleIdx badCommune.maternal_agents chwEligiblePred = [0, 1] := by
    unfold eligibleIdx
    rw [show badCommune.maternal_agents.length = 2 from rfl,
      show List.range 2 = [0, 1] from rfl, List.filter_eq_self.mpr hp]
  have hs : (sampleIdx 2 [0, 1] rng0).1 = [0, 1] := by
    simp [sampleIdx, Rng.nextIdx, Rng.next, rng0]
  rw [show chwRemainingCapacity badCommune = 1 from rfl]
  unfold chwTargets
  dsimp only
  rw [helig]
  norm_num [totalVisitsPossible, badCommune, badChw]
  rw [show Int.toNat 2 = 2 from rfl, hs]
  norm_num

/-- Witness for C2 (amended) on the concrete `badCommune` (all agents
initially uncontacted). -/
theorem c2_witness :
    (∀ a ∈ badCommune.maternal_agents, a.chw_contacted = false) ∧
    contactedCount (applyChwVisits badCommune 1 rng0).1.maternal_agents ≤
      chwRemainingCapacity badCommune :=
  ⟨by decide, (c2_chw_capacity badCommune 1 rng0 (by decide)).2.1⟩

/-- C7: `run_scenario` is deterministic.  In this embedding every source
of entropy is the explicit generator state (the model of the globally
seeded `random` / `np.random`), so two executions from identical commune
lists, identical configuration (duration and intervention flags) and
identical generator state produce identical recorded row sequences (same
commune, province, week and metric values in the same order), identical
final communes and identical final generator state. -/
theorem c7_run_scenario_deterministic (cs1 cs2 : List Commune) (d1 d2 : ℕ)
    (iv1 iv2 : Interventions) (g1 g2 : Rng)
    (hc : cs1 = cs2) (hd : d1 = d2) (hiv : iv1 = iv2) (hg : g1 = g2) :
    runScenario cs1 d1 iv1 g1 = runScenario cs2 d2 iv2 g2 := by
  rw [hc, hd, hiv, hg]

/-- Witness for C7 at a concrete commune list, duration, configuration
and generator. -/
theorem c7_witness :
    runScenario [commune0] 1 ivNone rng0 = runScenario [commune0] 1 ivNone rng0 :=
  c7_run_scenario_deterministic [commune0] [commune0] 1 1 ivNone ivNone rng0 rng0
    rfl rfl rfl rfl

/-- The one-commune demographic table used as the C1 failing input (zero
population keeps the weekly stepping trivial; the defect is purely
structural, in how the communes list is managed). -/
def row0 : DemographicRow := ⟨"A", "Dien Bien", 0, 0, 0⟩

/-- The simulation state after `ABMSimulation.__init__` on that table:
exactly one commune. -/
def sim0 : ABMSimulation := (initSimulation [row0] rng0).1

theorem initCommunes_foldl_length : ∀ (data : List DemographicRow)
    (acc : List Commune × Rng),
    ((data.foldl initCommuneStep acc).1).length = acc.1.length + data.length := by
  intro data
  induction data with
  | nil => intro acc; simp
  | cons row rest ih =>
    intro acc
    rw [List.foldl_cons, ih]
    unfold initCommuneStep
    simp
    omega

theorem initCommunes_length (data : List DemographicRow) (cs : List Commune) (g : Rng) :
    ((initCommunes data cs g).1).length = cs.length + data.length := by
  unfold initCommunes
  rw [initCommunes_foldl_length]

theorem applyIv_foldl_length (iv : Interventions) : ∀ (cs : List Commune)
    (acc : List Commune × Rng),
    ((cs.foldl (applyIvStep iv) acc).1).length = acc.1.length + cs.length := by
  intro cs
  induction cs with
  | nil => intro acc; simp
  | cons c rest ih =>
    intro acc
    rw [List.foldl_cons, ih]
    unfold applyIvStep
    simp
    omega

theorem applyAllInterventions_length (iv : Interventions) (cs : List Commune) (g : Rng) :
    ((applyAllInterventions iv cs g).1).length = cs.length := by
  unfold applyAllInterventions
  rw [applyIv_foldl_length]
  simp

theorem runWeek_foldl_length (iv : Interventions) (week : ℕ) : ∀ (cs : List Commune)
    (acc : List Commune × List SimRow × Rng),
    ((cs.foldl (runWeekStep iv week) acc).1).length = acc.1.length + cs.length ∧
    ((cs.foldl (runWeekStep iv week) acc).2.1).length =
      acc.2.1.length + (if week % 4 = 0 then cs.length else 0) := by
  intro cs
  induction cs with
  | nil => intro acc; simp
  | cons c rest ih =>
    intro acc
    rw [List.foldl_cons]
    obtain ⟨ih1, ih2⟩ := ih (runWeekStep iv week acc c)
    refine ⟨?_, ?_⟩
    · rw [ih1]
      unfold runWeekStep
      dsimp only
      simp
      omega
    · rw [ih2]
      unfold runWeekStep
      dsimp only
      split_ifs <;> simp
      omega

theorem runWeek_length (iv : Interventions) (week : ℕ) (cs : List Commune) (g : Rng) :
    ((runWeek iv week cs g).1).length = cs.length ∧
    ((runWeek iv week cs g).2.1).length = (if week % 4 = 0 then cs.length else 0) := by
  unfold runWeek
  have h := runWeek_foldl_length iv week cs ([], [], g)
  simpa using h

theorem runScenario_one_rows (cs : List Commune) (iv : Interventions) (g : Rng) :
    ((runScenario cs 1 iv g).1).length = cs.length := by
  unfold runScenario
  rw [show List.range 1 = [0] from rfl, List.foldl_cons, List.foldl_nil]
  unfold scenarioWeekStep
  dsimp only
  rw [List.nil_append, (runWeek_length iv 0 _ _).2]
  simp [applyAllInterventions_length]

theorem runScenario_one_communes (cs : List Commune) (iv : Interventions) (g : Rng) :
    ((runScenario cs 1 iv g).2.1).length = cs.length := by
  unfold runScenario
  rw [show List.range 1 = [0] from rfl, List.foldl_cons, List.foldl_nil]
  unfold scenarioWeekStep
  dsimp only
  rw [(runWeek_length iv 0 _ _).1]
  simp [applyAllInterventions_length]

/-- C1 (refuted): `run_all_scenarios` does NOT rebuild the communes list
from scratch — `_initialize_communes` appends to the existing list
without clearing it (despite the `Reset simulation state` comment at its
call site).  On a one-row table, after `__init__` there is 1 commune, but
after `run_all_scenarios` there are 7, and already the first scenario
(baseline) records 2 rows per metric week instead of 1 — the k-th
scenario steps (k+1) communes, of which k carry state from earlier
scenarios. -/
theorem c1_run_all_scenarios_accumulates_communes :
    sim0.communes.length = 1 ∧
    ((runAllScenarios sim0 1 rng0).1.communes).length = 7 ∧
    ((runAllScenarios sim0 1 rng0).1.results.getD 0 ("", [])).2.length = 2 := by
  have hd : sim0.demographic_data = [row0] := rfl
  have hr : sim0.results = [] := rfl
  have h1 : sim0.communes.length = 1 := by
    show ((initSimulation [row0] rng0).1).communes.length = 1
    unfold initSimulation
    dsimp only
    rw [initCommunes_length]
    rfl
  refine ⟨h1, ?_, ?_⟩
  · unfold runAllScenarios scenarioList
    rw [List.foldl_cons, List.foldl_cons, List.foldl_cons, List.foldl_cons,
      List.foldl_cons, List.foldl_cons, List.foldl_nil]
    unfold runAllStep
    dsimp only
    simp only [runScenario_one_communes, initCommunes_length, hd, List.length_cons,
      List.length_nil]
    omega
  · unfold runAllScenarios scenarioList
    rw [List.foldl_cons, List.foldl_cons, List.foldl_cons, List.foldl_cons,
      List.foldl_cons, List.foldl_cons, List.foldl_nil]
    unfold runAllStep
    dsimp only
    rw [hr]
    simp only [List.nil_append, List.append_assoc, List.cons_append, List.singleton_append]
    rw [List.getD_cons_zero]
    rw [runScenario_one_rows, initCommunes_length, hd]
    rw [h1]
    rfl
